import Mathlib

/-!
Shallow embedding of `src/agent.py` from the ADK multi-agent demo.

Python strings are modelled as Lean `String`; `str.lower()` and
`str.strip()` are modelled character-wise (`pyLower`, `pyStrip`).
Python dicts returned by `get_weather` are modelled as association
lists `List (String × String)` queried with `List.lookup`.
The console read-eval loop and the `try/finally` teardown are modelled
as pure functions over the list of console inputs, with an exception
flag (`Option`) and an emitted action trace.
-/

namespace ADKAgent

/-- Model of Python `str.lower()`: lowercase every character. -/
def pyLower (s : String) : String :=
  String.mk (s.data.map Char.toLower)

/-- Model of Python `str.strip()`: drop leading and trailing whitespace. -/
def pyStrip (s : String) : String :=
  String.mk (((s.data.dropWhile Char.isWhitespace).reverse.dropWhile
    Char.isWhitespace).reverse)

/-- Model of Python `os.getenv(key, default)` over an environment map. -/
def getenvD (env : String → Option String) (key dflt : String) : String :=
  (env key).getD dflt

/-- The fixed weather report string from `get_weather` (the source file
contains the bytes U+00C2 U+00B0 between `25` and `C`). -/
def weather_report : String :=
  "The weather in New York is sunny at 25Â°C."

/-- `get_weather` from `src/agent.py`: returns a success dict for
(case-insensitively) "new york", otherwise an error dict naming the city. -/
def get_weather (city : String) : List (String × String) :=
  if pyLower city = "new york" then
    [("status", "success"), ("report", weather_report)]
  else
    [("status", "error"),
     ("error_message", "Weather for \x27" ++ city ++ "\x27 not available.")]

/-- `say_hello` from `src/agent.py`; the Python default argument
`name="there"` is modelled with a Lean default argument. -/
def say_hello (name : String := "there") : String :=
  "Hello, " ++ name ++ "!"

/-- `say_goodbye` from `src/agent.py`; takes no data, so it is modelled
as a function from `Unit`. -/
def say_goodbye (_ : Unit) : String :=
  "Goodbye! Have a great day."

/-- The relevant configuration fields of the `LlmAgent` constructed in
`create_flight_search_agent` (the MCP tools come from the external
subprocess and carry no data modelled here). -/
structure LlmAgent where
  model : String
  name : String
  instruction : String
deriving DecidableEq

/-- `create_flight_search_agent` from `src/agent.py`, parameterised by the
process environment: the model id is `os.getenv("GEMINI_MODEL", "gemini-2.5-pro-exp-03-25")`. -/
def create_flight_search_agent (env : String → Option String) : LlmAgent :=
  { model := getenvD env "GEMINI_MODEL" "gemini-2.5-pro-exp-03-25",
    name := "flight_search_agent",
    instruction := "Help the user search for flights using the available tools. If no return date is specified, treat it as a one-way trip." }

/-- The exit test of the main loop:
`user_input.strip().lower() in ("exit", "quit")`. -/
def is_exit_command (line : String) : Bool :=
  pyLower (pyStrip line) == "exit" || pyLower (pyStrip line) == "quit"

/-- The messages the console loop forwards to `runner.run`, as a function
of the list of lines read from stdin: the loop breaks at the first exit
command and forwards every earlier line. -/
def consoleForwards : List String → List String
  | [] => []
  | line :: rest =>
    if is_exit_command line then [] else line :: consoleForwards rest

/-- Observable actions of the `__main__` block that the claims mention:
forwarding a message to the runner, and the awaited
`flight_exit_stack.aclose()` teardown. -/
inductive Action where
  | forward (msg : String)
  | teardown
deriving DecidableEq

/-- One console iteration input: the line typed, and whether the
`runner.run` call on that line raises an exception. -/
structure ConsoleInput where
  line : String
  runnerRaises : Bool

/-- Python `try body finally fin`: the finally block always runs after the
body; the whole statement raises iff the body raised (or the finally
raised). A computation is an action trace plus `some ()` for normal
completion or `none` for an escaping exception. -/
def tryFinally (body fin : List Action × Option Unit) :
    List Action × Option Unit :=
  (body.1 ++ fin.1, match fin.2 with | none => none | some _ => body.2)

/-- The `while True` body of the `__main__` block: reads lines in order;
an exhausted stdin makes `input()` raise (EOFError), an exit command
breaks normally, otherwise the line is forwarded and, if `runner.run`
raises, the exception escapes the loop. -/
def loopBody : List ConsoleInput → List Action × Option Unit
  | [] => ([], none)
  | i :: rest =>
    if is_exit_command i.line then ([], some ())
    else if i.runnerRaises then ([Action.forward i.line], none)
    else
      let r := loopBody rest
      (Action.forward i.line :: r.1, r.2)

/-- The `try ... finally` of the `__main__` block: the loop body wrapped so
that the teardown (awaited `aclose`) runs on every way out of the loop. -/
def main_program (inputs : List ConsoleInput) : List Action × Option Unit :=
  tryFinally (loopBody inputs) ([Action.teardown], some ())

/-! ## Helper lemmas -/

/-- Lowercasing fixes every whitespace character. -/
lemma toLower_of_isWhitespace {c : Char} (h : c.isWhitespace = true) :
    c.toLower = c := by
  simp [Char.isWhitespace] at h
  rcases h with ((h | h) | h) | h <;> subst h <;> decide

/-- A string with leading or trailing whitespace is not sent to
"new york" by `pyLower`. -/
lemma pyLower_ne_of_fringe_whitespace {city : String}
    (h : (∃ c, city.data.head? = some c ∧ c.isWhitespace = true) ∨
         (∃ c, city.data.getLast? = some c ∧ c.isWhitespace = true)) :
    pyLower city ≠ "new york" := by
  intro heq
  have hdata : city.data.map Char.toLower = ("new york" : String).data :=
    congrArg String.data heq
  rcases h with ⟨c, hc, hw⟩ | ⟨c, hc, hw⟩
  · have h1 : (city.data.map Char.toLower).head? = some 'n' := by
      rw [hdata]; rfl
    rw [List.head?_map, hc, Option.map_some', toLower_of_isWhitespace hw] at h1
    have hcn : c = 'n' := Option.some.inj h1
    subst hcn
    exact absurd hw (by decide)
  · have h1 : (city.data.map Char.toLower).getLast? = some 'k' := by
      rw [hdata]; rfl
    rw [List.getLast?_map, hc, Option.map_some', toLower_of_isWhitespace hw] at h1
    have hck : c = 'k' := Option.some.inj h1
    subst hck
    exact absurd hw (by decide)

/-- The loop body never performs the teardown itself. -/
lemma loopBody_count_teardown (inputs : List ConsoleInput) :
    ((loopBody inputs).1).count Action.teardown = 0 := by
  induction inputs with
  | nil => rfl
  | cons i rest ih =>
    by_cases h1 : is_exit_command i.line
    · simp [loopBody, h1]
    · by_cases h2 : i.runnerRaises
      · simp [loopBody, h1, h2, List.count_cons]
      · simp [loopBody, h1, h2, List.count_cons, ih]

/-! ## Claims -/

/-- C1: for every city whose (charwise) lowercased form is "new york" —
in particular "New York" and "new york" — `get_weather` returns the
success dict with the one fixed report string. -/
theorem get_weather_success_on_new_york (city : String)
    (h : pyLower city = "new york") :
    get_weather city = [("status", "success"), ("report", weather_report)] := by
  simp [get_weather, h]

theorem get_weather_success_on_new_york_spot_checks :
    (pyLower "New York" = "new york" ∧
      get_weather "New York" =
        [("status", "success"), ("report", weather_report)]) ∧
    (pyLower "new york" = "new york" ∧
      get_weather "new york" =
        [("status", "success"), ("report", weather_report)]) :=
  ⟨⟨by decide, get_weather_success_on_new_york "New York" (by decide)⟩,
   ⟨by decide, get_weather_success_on_new_york "new york" (by decide)⟩⟩

/-- C2: a city whose lowercased form is not "new york" gets the error
dict naming the city, such inputs never see a success status, and the
error status occurs exactly on those inputs (the only failure branch). -/
theorem get_weather_error_branch (city : String) :
    (List.lookup "status" (get_weather city) = some "error" ↔
      pyLower city ≠ "new york") ∧
    (pyLower city ≠ "new york" →
      get_weather city =
        [("status", "error"),
         ("error_message", "Weather for \x27" ++ city ++ "\x27 not available.")]) := by
  by_cases h : pyLower city = "new york" <;>
    simp [get_weather, h, List.lookup]

theorem get_weather_error_branch_spot_check :
    pyLower "Paris" ≠ "new york" ∧
    get_weather "Paris" =
      [("status", "error"),
       ("error_message", "Weather for \x27Paris\x27 not available.")] :=
  ⟨by decide, (get_weather_error_branch "Paris").2 (by decide)⟩

/-- C3: `say_hello name` is "Hello, " ++ name ++ "!" for every name, and
the declared default argument "there" yields "Hello, there!" (the value
of a call with no argument). -/
theorem say_hello_format :
    (∀ name : String, say_hello name = "Hello, " ++ name ++ "!") ∧
    say_hello "there" = "Hello, there!" :=
  ⟨fun _ => rfl, rfl⟩

/-- C4: `say_goodbye` returns the fixed farewell string on every call. -/
theorem say_goodbye_fixed (u : Unit) :
    say_goodbye u = "Goodbye! Have a great day." :=
  rfl

/-- C5: the exit predicate holds exactly when the stripped, lowercased
line is "exit" or "quit"; on such a line the loop stops forwarding, on
any other line it forwards the line and continues with the rest. -/
theorem console_exit_predicate (line : String) (rest : List String) :
    (is_exit_command line = true ↔
      (pyLower (pyStrip line) = "exit" ∨ pyLower (pyStrip line) = "quit")) ∧
    (is_exit_command line = true → consoleForwards (line :: rest) = []) ∧
    (is_exit_command line = false →
      consoleForwards (line :: rest) = line :: consoleForwards rest) := by
  refine ⟨?_, ?_, ?_⟩
  · simp [is_exit_command]
  · intro h; simp [consoleForwards, h]
  · intro h; simp [consoleForwards, h]

theorem console_exit_predicate_spot_checks :
    consoleForwards ("  QUIT " :: ["later"]) = [] ∧
    consoleForwards ("hello" :: ["quit"]) =
      "hello" :: consoleForwards ["quit"] :=
  ⟨(console_exit_predicate "  QUIT " ["later"]).2.1 (by decide),
   (console_exit_predicate "hello" ["quit"]).2.2 (by decide)⟩

/-- C6: the flight-search agent's model id is the GEMINI_MODEL
environment value when set, the default "gemini-2.5-pro-exp-03-25" when
unset, and depends on the environment only through that variable. -/
theorem flight_agent_model_from_env (env : String → Option String) :
    (∀ v, env "GEMINI_MODEL" = some v →
      (create_flight_search_agent env).model = v) ∧
    (env "GEMINI_MODEL" = none →
      (create_flight_search_agent env).model = "gemini-2.5-pro-exp-03-25") ∧
    (∀ env₂ : String → Option String,
      env "GEMINI_MODEL" = env₂ "GEMINI_MODEL" →
      (create_flight_search_agent env).model =
        (create_flight_search_agent env₂).model) := by
  refine ⟨?_, ?_, ?_⟩
  · intro v h; simp [create_flight_search_agent, getenvD, h]
  · intro h; simp [create_flight_search_agent, getenvD, h]
  · intro env₂ h; simp [create_flight_search_agent, getenvD, h]

theorem flight_agent_model_from_env_spot_checks :
    (create_flight_search_agent
      (fun k => if k = "GEMINI_MODEL" then some "gemini-custom" else none)).model
        = "gemini-custom" ∧
    (create_flight_search_agent (fun _ => none)).model
        = "gemini-2.5-pro-exp-03-25" :=
  ⟨(flight_agent_model_from_env _).1 "gemini-custom" (by decide),
   (flight_agent_model_from_env _).2.1 rfl⟩

/-- C7: whatever the console inputs — exit command, runner exception, or
exhausted stdin — the `finally` teardown action occurs exactly once in
the trace of the main program, and it is the last action. -/
theorem teardown_exactly_once (inputs : List ConsoleInput) :
    ((main_program inputs).1).count Action.teardown = 1 ∧
    ((main_program inputs).1).getLast? = some Action.teardown := by
  constructor
  · simp [main_program, tryFinally, List.count_append,
      loopBody_count_teardown, List.count_cons]
  · simp [main_program, tryFinally]

/-- C8: the dict returned by `get_weather` always has a "status" of
"success" or "error"; success dicts carry "report" and no
"error_message", error dicts carry "error_message" and no "report". -/
theorem get_weather_dict_shape (city : String) :
    (List.lookup "status" (get_weather city) = some "success" ∨
      List.lookup "status" (get_weather city) = some "error") ∧
    (List.lookup "status" (get_weather city) = some "success" →
      List.lookup "report" (get_weather city) ≠ none ∧
      List.lookup "error_message" (get_weather city) = none) ∧
    (List.lookup "status" (get_weather city) = some "error" →
      List.lookup "error_message" (get_weather city) ≠ none ∧
      List.lookup "report" (get_weather city) = none) := by
  by_cases h : pyLower city = "new york" <;>
    simp [get_weather, h, List.lookup]

theorem get_weather_dict_shape_spot_checks :
    (List.lookup "error_message" (get_weather "new york") = none) ∧
    (List.lookup "report" (get_weather "Paris") = none) :=
  ⟨((get_weather_dict_shape "new york").2.1 (by decide)).2,
   ((get_weather_dict_shape "Paris").2.2 (by decide)).2⟩

/-- C9: `get_weather` lowercases but never strips: any city with a
leading or trailing whitespace character — such as "  new york " — takes
the error branch, although its stripped lowercase form could match. -/
theorem get_weather_no_whitespace_normalization (city : String)
    (h : (∃ c, city.data.head? = some c ∧ c.isWhitespace = true) ∨
         (∃ c, city.data.getLast? = some c ∧ c.isWhitespace = true)) :
    List.lookup "status" (get_weather city) = some "error" := by
  have hne := pyLower_ne_of_fringe_whitespace h
  simp [get_weather, hne, List.lookup]

theorem get_weather_no_whitespace_normalization_spot_check :
    List.lookup "status" (get_weather "  new york ") = some "error" ∧
    pyLower (pyStrip "  new york ") = "new york" :=
  ⟨get_weather_no_whitespace_normalization "  new york "
      (Or.inl ⟨' ', rfl, by decide⟩),
   by decide⟩

/-- C10: the error message embeds the requested city verbatim — original
casing and spacing — between the quotes, not the lowercased form. -/
theorem get_weather_error_message_verbatim (city : String)
    (h : pyLower city ≠ "new york") :
    List.lookup "error_message" (get_weather city) =
      some ("Weather for \x27" ++ city ++ "\x27 not available.") := by
  simp [get_weather, h, List.lookup]

theorem get_weather_error_message_verbatim_spot_check :
    pyLower "  LonDon" ≠ "new york" ∧
    List.lookup "error_message" (get_weather "  LonDon") =
      some "Weather for \x27  LonDon\x27 not available." :=
  ⟨by decide,
   get_weather_error_message_verbatim "  LonDon" (by decide)⟩

end ADKAgent
